import Mathlib

/-!
Shallow embedding of the gallery lightbox interaction controller of
`src/js/main.js` (the `initGalleryLightbox` block, lines 253-374), together
with proofs of the testable properties claimed for it.

State fields mirror the DOM facts the controller mutates:
`active` is `lightbox.classList.contains('active')`, `ariaHidden` is the
lightbox's `aria-hidden` attribute, `bodyOverflowHidden` is
`document.body.style.overflow === 'hidden'`, `imgSrc`/`imgAlt` are the
`src`/`alt` of the `.lightbox-image` element, `captionText` is the text of
`.lightbox-caption`, and `focusOnClose` records that keyboard focus sits on
the `.lightbox-close` button.
-/

namespace Lightbox

/-- One gallery image element as the controller discovers it: its `src`
URI, its `alt` text, and the text of the `figcaption` of an enclosing
`figure` when one exists (`main.js` lines 293-295). -/
structure ImageEntry where
  src : String
  alt : String
  figcaption : Option String
deriving DecidableEq, Repr

/-- The mutable viewer state owned by the controller. -/
structure LightboxState where
  currentIndex : Nat
  active : Bool
  ariaHidden : Bool
  bodyOverflowHidden : Bool
  imgSrc : String
  imgAlt : String
  captionText : String
  focusOnClose : Bool
deriving DecidableEq, Repr

/-- The state right after `initGalleryLightbox` builds the lightbox DOM
(`main.js` lines 257-277): `currentIndex = 0`, no `active` class,
`aria-hidden="true"`, body scroll untouched, `src=""`, `alt=""`, empty
caption, focus elsewhere. -/
def initialState : LightboxState :=
  { currentIndex := 0
    active := false
    ariaHidden := true
    bodyOverflowHidden := false
    imgSrc := ""
    imgAlt := ""
    captionText := ""
    focusOnClose := false }

/-- `showLightbox(index)` (`main.js` lines 291-307): set
`currentIndex = index`, render entry `index`'s `src`, `alt` and caption
(the `figcaption` text when present, else the `alt` text), add the
`active` class, set `aria-hidden="false"`, hide body overflow, and focus
the close button.  `imageArray[index]` is `undefined` for an out-of-range
index and the subsequent member access throws, which the embedding renders
as `none`. The result does not depend on the prior state because every
field is written. -/
def showLightbox (gallery : List ImageEntry) (index : Nat)
    (_s : LightboxState) : Option LightboxState :=
  match gallery.get? index with
  | none => none
  | some img =>
    some
      { currentIndex := index
        active := true
        ariaHidden := false
        bodyOverflowHidden := true
        imgSrc := img.src
        imgAlt := img.alt
        captionText := img.figcaption.getD img.alt
        focusOnClose := true }

/-- `closeLightbox()` (`main.js` lines 313-317): remove the `active`
class, set `aria-hidden="true"`, restore body overflow.  Nothing else is
touched: `currentIndex` and the rendered `src`/`alt`/caption keep their
values. -/
def closeLightbox (s : LightboxState) : LightboxState :=
  { s with active := false, ariaHidden := true, bodyOverflowHidden := false }

/-- `showNext()` (`main.js` lines 323-326):
`currentIndex = (currentIndex + 1) % imageArray.length`, then
`showLightbox(currentIndex)`. -/
def showNext (gallery : List ImageEntry) (s : LightboxState) :
    Option LightboxState :=
  showLightbox gallery ((s.currentIndex + 1) % gallery.length) s

/-- `showPrev()` (`main.js` lines 332-335):
`currentIndex = (currentIndex - 1 + imageArray.length) % imageArray.length`,
then `showLightbox(currentIndex)`.  The JS operand order
`currentIndex - 1 + length` is rearranged to
`currentIndex + length - 1` so that truncating `Nat` subtraction agrees
with the JS integer value (for `length >= 1` the two are equal over the
integers, and the controller only exists for `length >= 1`). -/
def showPrev (gallery : List ImageEntry) (s : LightboxState) :
    Option LightboxState :=
  showLightbox gallery ((s.currentIndex + gallery.length - 1) % gallery.length) s

/-- The keys the document-level keydown listener of the lightbox
distinguishes; every other key is `other`. -/
inductive Key where
  | escape
  | arrowLeft
  | arrowRight
  | other
deriving DecidableEq, Repr

/-- The document-level keydown listener (`main.js` lines 359-373): only
when the lightbox has the `active` class, Escape closes, ArrowLeft shows
the previous image, ArrowRight the next; otherwise the event falls
through with no effect on the viewer. -/
def onKeydown (gallery : List ImageEntry) (k : Key) (s : LightboxState) :
    Option LightboxState :=
  if s.active then
    match k with
    | Key.escape => some (closeLightbox s)
    | Key.arrowLeft => showPrev gallery s
    | Key.arrowRight => showNext gallery s
    | Key.other => some s
  else
    some s

/-- `initGalleryLightbox()` (`main.js` lines 253-258): when the page has
zero gallery images the function returns before the lightbox DOM is
created or any listener attached — no viewer state exists, rendered here
as `none`; otherwise the freshly built `initialState` exists. -/
def initGalleryLightbox (gallery : List ImageEntry) : Option LightboxState :=
  if gallery.length = 0 then none
  else some initialState

/-- The controller operations reachable through UI entry points:
`openAt i` is a click/Enter/Space on gallery image `i` (`main.js` lines
338-350), `close` a close-button/overlay click or Escape, `next`/`prev`
the navigation buttons or arrow keys. -/
inductive Op where
  | openAt (i : Nat)
  | close
  | next
  | prev
deriving DecidableEq, Repr

/-- Apply one operation to the viewer state. -/
def applyOp (gallery : List ImageEntry) (op : Op) (s : LightboxState) :
    Option LightboxState :=
  match op with
  | Op.openAt i => showLightbox gallery i s
  | Op.close => some (closeLightbox s)
  | Op.next => showNext gallery s
  | Op.prev => showPrev gallery s

/-- Run a finite sequence of operations from a state. -/
def runOps (gallery : List ImageEntry) : List Op → LightboxState →
    Option LightboxState
  | [], s => some s
  | op :: ops, s => (applyOp gallery op s).bind (runOps gallery ops)

/-- `openAt i` is a legitimate UI entry point only for an index that the
gallery `forEach` wiring produced, i.e. `i < length`; the other
operations carry no index. -/
def validOp (gallery : List ImageEntry) : Op → Bool
  | Op.openAt i => i < gallery.length
  | _ => true

/-- Iterate `showNext` a given number of times. -/
def iterateNext (gallery : List ImageEntry) : Nat → LightboxState →
    Option LightboxState
  | 0, s => some s
  | k + 1, s => (showNext gallery s).bind (iterateNext gallery k)

/-- A three-entry gallery used as concrete witness data; entry 1 has no
associated caption element. -/
def sampleGallery : List ImageEntry :=
  [{ src := "img1.jpg", alt := "Alt 1", figcaption := some "Caption 1" },
   { src := "img2.jpg", alt := "Alt 2", figcaption := none },
   { src := "img3.jpg", alt := "Alt 3", figcaption := some "Caption 3" }]

/-- The rendered state after opening entry 0 of `sampleGallery`. -/
def sampleOpen : LightboxState :=
  { currentIndex := 0
    active := true
    ariaHidden := false
    bodyOverflowHidden := true
    imgSrc := "img1.jpg"
    imgAlt := "Alt 1"
    captionText := "Caption 1"
    focusOnClose := true }

/-- The rendered state after opening entry 1 of `sampleGallery`; entry 1
has no caption element, so the caption falls back to the alt text. -/
def sampleOpen1 : LightboxState :=
  { currentIndex := 1
    active := true
    ariaHidden := false
    bodyOverflowHidden := true
    imgSrc := "img2.jpg"
    imgAlt := "Alt 2"
    captionText := "Alt 2"
    focusOnClose := true }

/-- The rendered state after opening entry 2 of `sampleGallery`. -/
def sampleOpen2 : LightboxState :=
  { currentIndex := 2
    active := true
    ariaHidden := false
    bodyOverflowHidden := true
    imgSrc := "img3.jpg"
    imgAlt := "Alt 3"
    captionText := "Caption 3"
    focusOnClose := true }

/-- The reachability invariant: the tracked index is in range, and a
closed viewer has `aria-hidden="true"` and body scroll restored. -/
def StateInv (gallery : List ImageEntry) (s : LightboxState) : Prop :=
  s.currentIndex < gallery.length ∧
    (s.active = false → s.ariaHidden = true ∧ s.bodyOverflowHidden = false)

/-- `showLightbox` ignores the prior state: every field of the result is
written. -/
theorem showLightbox_state_irrel (gallery : List ImageEntry) (i : Nat)
    (s t : LightboxState) :
    showLightbox gallery i s = showLightbox gallery i t := rfl

/-- Evaluating `showLightbox` at an in-range index. -/
theorem showLightbox_of_lt (gallery : List ImageEntry) (i : Nat)
    (h : i < gallery.length) (s : LightboxState) :
    showLightbox gallery i s =
      some
        { currentIndex := i
          active := true
          ariaHidden := false
          bodyOverflowHidden := true
          imgSrc := (gallery.get ⟨i, h⟩).src
          imgAlt := (gallery.get ⟨i, h⟩).alt
          captionText := ((gallery.get ⟨i, h⟩).figcaption).getD
            (gallery.get ⟨i, h⟩).alt
          focusOnClose := true } := by
  unfold showLightbox
  rw [List.get?_eq_get h]

/-- Inversion for `showLightbox`: success pins down the index, the open
flags and focus, and shows the index was in range. -/
theorem showLightbox_some (gallery : List ImageEntry) (i : Nat)
    (s s' : LightboxState) (h : showLightbox gallery i s = some s') :
    i < gallery.length ∧ s'.currentIndex = i ∧ s'.active = true ∧
      s'.ariaHidden = false ∧ s'.bodyOverflowHidden = true ∧
      s'.focusOnClose = true := by
  have hlt : i < gallery.length := by
    by_contra hc
    push_neg at hc
    unfold showLightbox at h
    rw [List.get?_eq_none.mpr hc] at h
    exact Option.noConfusion h
  rw [showLightbox_of_lt gallery i hlt s] at h
  obtain rfl : _ = s' := Option.some.inj h
  exact ⟨hlt, rfl, rfl, rfl, rfl, rfl⟩

/-- The freshly initialized state satisfies the invariant for a nonempty
gallery. -/
theorem initialState_inv (gallery : List ImageEntry)
    (hn : 0 < gallery.length) : StateInv gallery initialState :=
  ⟨hn, fun _ => ⟨rfl, rfl⟩⟩

/-- Each operation preserves the invariant. -/
theorem applyOp_inv (gallery : List ImageEntry) (op : Op)
    (s s' : LightboxState) (hs : StateInv gallery s)
    (h : applyOp gallery op s = some s') : StateInv gallery s' := by
  cases op with
  | openAt i =>
    obtain ⟨hlt, hidx, hact, -, -, -⟩ := showLightbox_some gallery i s s' h
    exact ⟨hidx ▸ hlt, fun hc => absurd hact (by simp [hc])⟩
  | close =>
    obtain rfl : closeLightbox s = s' := Option.some.inj h
    exact ⟨hs.1, fun _ => ⟨rfl, rfl⟩⟩
  | next =>
    obtain ⟨hlt, hidx, hact, -, -, -⟩ :=
      showLightbox_some gallery ((s.currentIndex + 1) % gallery.length) s s' h
    exact ⟨hidx ▸ hlt, fun hc => absurd hact (by simp [hc])⟩
  | prev =>
    obtain ⟨hlt, hidx, hact, -, -, -⟩ :=
      showLightbox_some gallery
        ((s.currentIndex + gallery.length - 1) % gallery.length) s s' h
    exact ⟨hidx ▸ hlt, fun hc => absurd hact (by simp [hc])⟩

/-- Running any operation sequence preserves the invariant. -/
theorem runOps_inv (gallery : List ImageEntry) (ops : List Op)
    (s s' : LightboxState) (hs : StateInv gallery s)
    (h : runOps gallery ops s = some s') : StateInv gallery s' := by
  induction ops generalizing s with
  | nil =>
    obtain rfl : s = s' := Option.some.inj h
    exact hs
  | cons op ops ih =>
    unfold runOps at h
    cases hap : applyOp gallery op s with
    | none => rw [hap] at h; exact Option.noConfusion h
    | some s₁ =>
      rw [hap] at h
      exact ih s₁ (applyOp_inv gallery op s s₁ hs hap) h

/-- Iterating `showNext` from the rendered state at index `j` lands on the
rendered state at index `(j + k) % length`. -/
theorem iterateNext_showLightbox (gallery : List ImageEntry)
    (hn : 0 < gallery.length) :
    ∀ (k j : Nat) (s : LightboxState), j < gallery.length →
      showLightbox gallery j initialState = some s →
      iterateNext gallery k s =
        showLightbox gallery ((j + k) % gallery.length) initialState := by
  intro k
  induction k with
  | zero =>
    intro j s hj hs
    simp only [iterateNext, Nat.add_zero, Nat.mod_eq_of_lt hj]
    exact hs.symm
  | succ k ih =>
    intro j s hj hs
    have hidx : s.currentIndex = j := by
      rw [showLightbox_of_lt gallery j hj initialState] at hs
      obtain rfl := Option.some.inj hs
      rfl
    have hj1 : (j + 1) % gallery.length < gallery.length := Nat.mod_lt _ hn
    have hs₁ := showLightbox_of_lt gallery ((j + 1) % gallery.length) hj1
      initialState
    have hnext : showNext gallery s =
        showLightbox gallery ((j + 1) % gallery.length) initialState := by
      unfold showNext
      rw [hidx]
      exact showLightbox_state_irrel gallery _ s initialState
    have hmod : ((j + 1) % gallery.length + k) % gallery.length =
        (j + (k + 1)) % gallery.length := by
      rw [Nat.mod_add_mod]
      congr 1
      omega
    show (showNext gallery s).bind (iterateNext gallery k) = _
    rw [hnext, hs₁, Option.some_bind, ih ((j + 1) % gallery.length) _ hj1 hs₁,
      hmod]

/-- C1: from any open state at a valid index `i` of a gallery of length
`n ≥ 1`, `next()` moves to the open state at index `(i + 1) % n` and
`previous()` to the open state at index `(i - 1 + n) % n` (written
`(i + n - 1) % n` over `Nat`, the same integer for `0 ≤ i < n`); in
particular `next()` at the last index `n - 1` lands on index `0` and
`previous()` at index `0` lands on index `n - 1`. -/
theorem next_prev_wraparound (gallery : List ImageEntry) (s : LightboxState)
    (hn : 1 ≤ gallery.length) (_hopen : s.active = true)
    (_hi : s.currentIndex < gallery.length) :
    (∃ s', showNext gallery s = some s' ∧ s'.active = true ∧
        s'.currentIndex = (s.currentIndex + 1) % gallery.length) ∧
    (∃ s', showPrev gallery s = some s' ∧ s'.active = true ∧
        s'.currentIndex =
          (s.currentIndex + gallery.length - 1) % gallery.length) ∧
    (s.currentIndex = gallery.length - 1 →
      ∃ s', showNext gallery s = some s' ∧ s'.currentIndex = 0) ∧
    (s.currentIndex = 0 →
      ∃ s', showPrev gallery s = some s' ∧
        s'.currentIndex = gallery.length - 1) := by
  have hn' : 0 < gallery.length := hn
  have h1 : (s.currentIndex + 1) % gallery.length < gallery.length :=
    Nat.mod_lt _ hn'
  have h2 : (s.currentIndex + gallery.length - 1) % gallery.length <
      gallery.length := Nat.mod_lt _ hn'
  refine ⟨⟨_, showLightbox_of_lt gallery _ h1 s, rfl, rfl⟩,
    ⟨_, showLightbox_of_lt gallery _ h2 s, rfl, rfl⟩, ?_, ?_⟩
  · intro hlast
    refine ⟨_, showLightbox_of_lt gallery _ h1 s, ?_⟩
    show (s.currentIndex + 1) % gallery.length = 0
    rw [hlast, Nat.sub_add_cancel hn, Nat.mod_self]
  · intro hfirst
    refine ⟨_, showLightbox_of_lt gallery _ h2 s, ?_⟩
    show (s.currentIndex + gallery.length - 1) % gallery.length =
      gallery.length - 1
    rw [hfirst, Nat.zero_add, Nat.mod_eq_of_lt (by omega)]

/-- C1 witness: in the three-image sample gallery, `next()` at the last
index 2 lands on index 0. -/
theorem next_prev_wraparound_witness :
    sampleOpen2.currentIndex = sampleGallery.length - 1 ∧
    ∃ s', showNext sampleGallery sampleOpen2 = some s' ∧
      s'.currentIndex = 0 :=
  ⟨by decide,
    (next_prev_wraparound sampleGallery sampleOpen2 (by decide) (by decide)
      (by decide)).2.2.1 (by decide)⟩

/-- C2: right after `open(i)` at a valid index, the viewer shows entry
`i`'s source, its accessible name is entry `i`'s alt text, and its
caption is the associated caption element's text when one exists, else
the alt text. -/
theorem open_renders_entry (gallery : List ImageEntry) (i : Nat)
    (s : LightboxState) (h : i < gallery.length) :
    ∃ e s', gallery.get? i = some e ∧ showLightbox gallery i s = some s' ∧
      s'.imgSrc = e.src ∧ s'.imgAlt = e.alt ∧
      (∀ c, e.figcaption = some c → s'.captionText = c) ∧
      (e.figcaption = none → s'.captionText = e.alt) := by
  refine ⟨gallery.get ⟨i, h⟩, _, List.get?_eq_get h,
    showLightbox_of_lt gallery i h s, rfl, rfl, ?_, ?_⟩
  · intro c hc
    show ((gallery.get ⟨i, h⟩).figcaption).getD (gallery.get ⟨i, h⟩).alt = c
    rw [hc]
    rfl
  · intro hc
    show ((gallery.get ⟨i, h⟩).figcaption).getD (gallery.get ⟨i, h⟩).alt = _
    rw [hc]
    rfl

/-- C2 witness: opening entry 1 of the sample gallery (which has no
caption element) renders its source and alt, captioned by the alt. -/
theorem open_renders_entry_witness :
    ∃ e s', sampleGallery.get? 1 = some e ∧
      showLightbox sampleGallery 1 initialState = some s' ∧
      s'.imgSrc = e.src ∧ s'.imgAlt = e.alt ∧
      (∀ c, e.figcaption = some c → s'.captionText = c) ∧
      (e.figcaption = none → s'.captionText = e.alt) :=
  open_renders_entry sampleGallery 1 initialState (by decide)

/-- C3: in every state reachable from the freshly initialized state by a
finite sequence of entry-point operations (opens at gallery-derived
indices, closes, next, previous), an open viewer has a valid current
index. -/
theorem reachable_open_index_valid (gallery : List ImageEntry)
    (ops : List Op) (s : LightboxState) (hn : 1 ≤ gallery.length)
    (_hops : ∀ op ∈ ops, validOp gallery op = true)
    (hrun : runOps gallery ops initialState = some s)
    (_hopen : s.active = true) :
    s.currentIndex < gallery.length :=
  (runOps_inv gallery ops initialState s (initialState_inv gallery hn)
    hrun).1

/-- C3 witness: after `open(1)` then `next()` on the sample gallery the
viewer is open at index 2, which is in range. -/
theorem reachable_open_index_valid_witness :
    runOps sampleGallery [Op.openAt 1, Op.next] initialState =
      some sampleOpen2 ∧
    sampleOpen2.currentIndex < sampleGallery.length :=
  ⟨by decide,
    reachable_open_index_valid sampleGallery [Op.openAt 1, Op.next]
      sampleOpen2 (by decide) (by decide) (by decide) (by decide)⟩

/-- C4: `close()` is idempotent — closing twice equals closing once on
every state — and on any reachable already-closed state `close()` is a
no-op (the embedding is a total function, so no error is raised). -/
theorem close_idempotent :
    (∀ s : LightboxState,
      closeLightbox (closeLightbox s) = closeLightbox s) ∧
    (∀ (gallery : List ImageEntry) (ops : List Op) (s : LightboxState),
      0 < gallery.length → runOps gallery ops initialState = some s →
      s.active = false → closeLightbox s = s) := by
  constructor
  · intro s
    rfl
  · intro gallery ops s hn hrun hclosed
    obtain ⟨-, hcl⟩ := runOps_inv gallery ops initialState s
      (initialState_inv gallery hn) hrun
    obtain ⟨hhid, hov⟩ := hcl hclosed
    cases s with
    | mk c a ah ov sr al cap f =>
      simp only at hclosed hhid hov
      subst hclosed hhid hov
      rfl

/-- C4 witness: double close equals single close on a concrete open
state, and close on the reachable initial (closed) state is a no-op. -/
theorem close_idempotent_witness :
    closeLightbox (closeLightbox sampleOpen) = closeLightbox sampleOpen ∧
    closeLightbox initialState = initialState :=
  ⟨close_idempotent.1 sampleOpen,
    close_idempotent.2 sampleGallery [] initialState (by decide) rfl rfl⟩

/-- C5 counterexample: open entry 0 of the sample gallery, then close.
The viewer is closed and scrolling restored, but the rendered source,
accessible name and caption still hold entry 0's values — none of them is
reset or emptied, refuting the claim that `close()` clears the rendered
image attributes. -/
theorem close_leaves_rendered_attributes :
    showLightbox sampleGallery 0 initialState = some sampleOpen ∧
    (closeLightbox sampleOpen).active = false ∧
    (closeLightbox sampleOpen).bodyOverflowHidden = false ∧
    (closeLightbox sampleOpen).imgSrc = "img1.jpg" ∧
    (closeLightbox sampleOpen).imgAlt = "Alt 1" ∧
    (closeLightbox sampleOpen).captionText = "Caption 1" ∧
    ¬((closeLightbox sampleOpen).imgSrc = "") ∧
    ¬((closeLightbox sampleOpen).imgAlt = "") ∧
    ¬((closeLightbox sampleOpen).captionText = "") := by
  decide

/-- C5 amended: for every open state, `close()` sets the viewer to closed
(removes the active class, marks it hidden) and restores page scrolling,
while the rendered image attributes — displayed source, accessible name
and caption — are left unchanged, not cleared. -/
theorem close_closes_restores_keeps_attributes (s : LightboxState)
    (_hopen : s.active = true) :
    (closeLightbox s).active = false ∧
    (closeLightbox s).ariaHidden = true ∧
    (closeLightbox s).bodyOverflowHidden = false ∧
    (closeLightbox s).imgSrc = s.imgSrc ∧
    (closeLightbox s).imgAlt = s.imgAlt ∧
    (closeLightbox s).captionText = s.captionText :=
  ⟨rfl, rfl, rfl, rfl, rfl, rfl⟩

/-- C5 amended-theorem witness at the concrete open state for entry 0. -/
theorem close_closes_restores_keeps_attributes_witness :
    (closeLightbox sampleOpen).active = false ∧
    (closeLightbox sampleOpen).ariaHidden = true ∧
    (closeLightbox sampleOpen).bodyOverflowHidden = false ∧
    (closeLightbox sampleOpen).imgSrc = sampleOpen.imgSrc ∧
    (closeLightbox sampleOpen).imgAlt = sampleOpen.imgAlt ∧
    (closeLightbox sampleOpen).captionText = sampleOpen.captionText :=
  close_closes_restores_keeps_attributes sampleOpen rfl

/-- C6: from the rendered open state at index `i` of a gallery of length
`n ≥ 1`, `k` successive `next()` calls land on the open state at index
`(i + k) % n` — no step skipped or coalesced — and exactly `n` calls
return the very same state (the `n`-fold composition of `next()` is the
identity on rendered open states). -/
theorem next_full_cycle (gallery : List ImageEntry) (i : Nat)
    (s0 s : LightboxState) (hn : 0 < gallery.length)
    (hi : i < gallery.length) (hs : showLightbox gallery i s0 = some s) :
    (∀ k : Nat, ∃ sk, iterateNext gallery k s = some sk ∧
        sk.active = true ∧ sk.currentIndex = (i + k) % gallery.length) ∧
    iterateNext gallery gallery.length s = some s := by
  have hs' : showLightbox gallery i initialState = some s := by
    rw [showLightbox_state_irrel gallery i initialState s0]
    exact hs
  constructor
  · intro k
    have h := iterateNext_showLightbox gallery hn k i s hi hs'
    have hk : (i + k) % gallery.length < gallery.length := Nat.mod_lt _ hn
    exact ⟨_, h.trans (showLightbox_of_lt gallery _ hk initialState), rfl,
      rfl⟩
  · have h := iterateNext_showLightbox gallery hn gallery.length i s hi hs'
    rw [h, Nat.add_mod_right, Nat.mod_eq_of_lt hi]
    exact hs'

/-- C6 witness: three `next()` calls on the three-image sample gallery,
starting at the rendered state for index 0, return exactly that state. -/
theorem next_full_cycle_witness :
    iterateNext sampleGallery sampleGallery.length sampleOpen =
      some sampleOpen :=
  (next_full_cycle sampleGallery 0 initialState sampleOpen (by decide)
    (by decide) (by decide)).2

/-- C7: while the viewer is closed, a keydown for ArrowRight, ArrowLeft
or Escape delivered to the lightbox key handler leaves the entire viewer
state unchanged. -/
theorem keydown_closed_noop (gallery : List ImageEntry) (k : Key)
    (s : LightboxState) (hclosed : s.active = false)
    (_hk : k = Key.arrowRight ∨ k = Key.arrowLeft ∨ k = Key.escape) :
    onKeydown gallery k s = some s := by
  simp [onKeydown, hclosed]

/-- C7 witness: Escape on the closed initial state changes nothing. -/
theorem keydown_closed_noop_witness :
    onKeydown sampleGallery Key.escape initialState = some initialState :=
  keydown_closed_noop sampleGallery Key.escape initialState rfl
    (Or.inr (Or.inr rfl))

/-- C8: `open(i)` at a valid index marks the modal visible
(`aria-hidden="false"`), disables page scrolling and moves focus to the
close control; `close()` marks it hidden (`aria-hidden="true"`) and
restores page scrolling. -/
theorem open_close_modal_sync (gallery : List ImageEntry) (i : Nat)
    (s : LightboxState) (hi : i < gallery.length) :
    (∃ s', showLightbox gallery i s = some s' ∧ s'.ariaHidden = false ∧
        s'.bodyOverflowHidden = true ∧ s'.focusOnClose = true) ∧
    (∀ t : LightboxState, (closeLightbox t).ariaHidden = true ∧
        (closeLightbox t).bodyOverflowHidden = false) :=
  ⟨⟨_, showLightbox_of_lt gallery i hi s, rfl, rfl, rfl⟩,
    fun _ => ⟨rfl, rfl⟩⟩

/-- C8 witness: opening entry 0 of the sample gallery shows the modal,
locks scrolling and focuses the close control, and closing re-hides it. -/
theorem open_close_modal_sync_witness :
    (∃ s', showLightbox sampleGallery 0 initialState = some s' ∧
        s'.ariaHidden = false ∧ s'.bodyOverflowHidden = true ∧
        s'.focusOnClose = true) ∧
    (closeLightbox sampleOpen).ariaHidden = true ∧
    (closeLightbox sampleOpen).bodyOverflowHidden = false :=
  ⟨(open_close_modal_sync sampleGallery 0 initialState (by decide)).1,
    (open_close_modal_sync sampleGallery 0 initialState (by decide)).2
      sampleOpen⟩

/-- C9: with zero gallery images, initialization returns before building
any viewer or attaching listeners — no lightbox state exists at all. -/
theorem init_zero_images (gallery : List ImageEntry)
    (h : gallery.length = 0) : initGalleryLightbox gallery = none := by
  simp [initGalleryLightbox, h]

/-- C9 witness: initializing over the empty gallery yields no viewer. -/
theorem init_zero_images_witness :
    initGalleryLightbox ([] : List ImageEntry) = none :=
  init_zero_images [] rfl

/-- C10: `next()` and `previous()` both delegate to the single render
routine `showLightbox`, whose final step focuses the close button, so
every successful navigation leaves keyboard focus on the close control. -/
theorem nav_focuses_close (gallery : List ImageEntry)
    (s s' : LightboxState) :
    (showNext gallery s =
      showLightbox gallery ((s.currentIndex + 1) % gallery.length) s) ∧
    (showPrev gallery s =
      showLightbox gallery
        ((s.currentIndex + gallery.length - 1) % gallery.length) s) ∧
    (showNext gallery s = some s' → s'.focusOnClose = true) ∧
    (showPrev gallery s = some s' → s'.focusOnClose = true) := by
  refine ⟨rfl, rfl, ?_, ?_⟩
  · intro h
    exact (showLightbox_some gallery _ s s' h).2.2.2.2.2
  · intro h
    exact (showLightbox_some gallery _ s s' h).2.2.2.2.2

/-- C10 witness: `next()` from the rendered state at index 0 of the
sample gallery lands on the rendered state at index 1, with focus on the
close control. -/
theorem nav_focuses_close_witness :
    showNext sampleGallery sampleOpen = some sampleOpen1 ∧
    sampleOpen1.focusOnClose = true :=
  ⟨by decide,
    (nav_focuses_close sampleGallery sampleOpen sampleOpen1).2.2.1
      (by decide)⟩

end Lightbox
